import Mathlib

/-!
# Verification of the USCCB parish-extraction core

Shallow embedding, in Lean 4, of the site classifier, extractor strategies,
record validator/deduplicator and extraction orchestrator of the
`usccb-parish-extraction` repository, together with proofs checking the
natural-language specification against the code.

Python strings are modelled as `String` / `List Char` (ASCII behaviour of
`str.lower`, `str.strip`, `str.split`); Python `float` values are modelled as
`ℚ` and the `float()` builtin as a partial decimal parser; Python `None` as
`Option`; raised exceptions as `Except`.  BeautifulSoup documents are modelled
by the query results the code actually consumes (tag, class attribute, id
attribute, concatenated text, headings, link hrefs), since the code only
touches documents through that selection API.
-/

namespace USCCB

/-! ## String utilities (models of Python string builtins) -/

/-- ASCII lower-casing of one character, as Python `str.lower` acts on ASCII. -/
def lowerChar (c : Char) : Char :=
  if 'A' ≤ c ∧ c ≤ 'Z' then Char.ofNat (c.toNat + 32) else c

/-- Python whitespace (the characters stripped by `str.strip` and split by
`str.split()` / matched by regex `\s`). -/
def isPySpace (c : Char) : Bool :=
  c = ' ' || c = '\t' || c = '\n' || c = '\r' || c = '\x0b' || c = '\x0c'

/-- `str.lower` on a character list. -/
def pyLowerL (l : List Char) : List Char := l.map lowerChar

/-- `str.lower`. -/
def pyLower (s : String) : String := ⟨pyLowerL s.data⟩

/-- `str.strip` on a character list. -/
def pyStripL (l : List Char) : List Char :=
  ((l.dropWhile isPySpace).reverse.dropWhile isPySpace).reverse

/-- `str.strip`. -/
def pyStrip (s : String) : String := ⟨pyStripL s.data⟩

/-- Python substring containment `needle in hay` on character lists:
`needle` occurs contiguously somewhere in `hay`. -/
def containsL (hay needle : List Char) : Bool :=
  match hay with
  | [] => needle.isEmpty
  | c :: t => needle.isPrefixOf (c :: t) || containsL t needle

/-- Python substring containment `needle in hay`. -/
def pyContains (hay needle : String) : Bool := containsL hay.data needle.data

/-- `str.split()` (split on whitespace runs, dropping empty parts),
on a character list. -/
def pySplitWsL (l : List Char) : List (List Char) :=
  (l.splitOnP isPySpace).filter (· ≠ [])

/-- `' '.join(text.strip().split())`, the repository's `clean_text`
(whitespace normalisation; `clean_text(None)` is not modelled since names
are plain strings here). -/
def clean_text (text : String) : String :=
  ⟨(pySplitWsL text.data).intersperse [' '] |>.flatten⟩

/-! ## Name plausibility validator

From `src/extractors/base.py`, `BaseExtractor.validate_parish_name`
(the identical copy in `src/utils/ai_analysis.py` is the same function). -/

/-- The eleven skip-terms rejected by the validator. -/
def skip_terms : List String :=
  ["contact", "office", "directory", "finder", "search", "filter",
   "map", "diocese", "bishop", "center", "no parish registration"]

/-- The ten parish indicators required by the validator. -/
def parish_indicators : List String :=
  ["parish", "church", "st.", "saint", "our lady", "holy",
   "cathedral", "chapel", "basilica", "shrine"]

/-- `validate_parish_name` from `src/extractors/base.py`:
reject when empty or trimmed length < 3; reject when any skip-term occurs
(case-insensitively) in the name; otherwise accept iff some parish indicator
occurs. -/
def validate_parish_name (name : String) : Bool :=
  if name == "" || (pyStrip name).length < 3 then false
  else if skip_terms.any (fun term => pyContains (pyLower name) term) then false
  else parish_indicators.any (fun ind => pyContains (pyLower name) ind)

/-! ## Parish records and the deduplicator

`Parish` from `src/models.py`; `remove_duplicates` from
`src/extractors/base.py`.  Python floats are modelled as `ℚ`. -/

/-- The `Parish` dataclass of `src/models.py`. -/
structure Parish where
  name : String
  city : Option String := none
  address : Option String := none
  phone : Option String := none
  website : Option String := none
  latitude : Option ℚ := none
  longitude : Option ℚ := none
  confidence : ℚ := mkRat 1 2
  extraction_method : String := "unknown"
  deriving DecidableEq, Repr

/-- `parish.name.lower().strip()`, the deduplication key. -/
def nameKey (p : Parish) : String := pyStrip (pyLower p.name)

/-- The loop of `BaseExtractor.remove_duplicates`: `seen` is the set of
name keys already emitted; a parish is kept iff its key is unseen and its
name validates, in which case its key is added to `seen`. -/
def removeDupsGo : List Parish → List String → List Parish
  | [], _ => []
  | p :: ps, seen =>
    if nameKey p ∉ seen ∧ validate_parish_name p.name = true then
      p :: removeDupsGo ps (nameKey p :: seen)
    else removeDupsGo ps seen

/-- `BaseExtractor.remove_duplicates` from `src/extractors/base.py`. -/
def remove_duplicates (parishes : List Parish) : List Parish :=
  removeDupsGo parishes []

/-- The specification's deduplication: scan in order, keep the first
occurrence of each key.  (Stated from the spec's words, for comparison
with `remove_duplicates`.) -/
def dedupFirstSeen : List Parish → List String → List Parish
  | [], _ => []
  | p :: ps, seen =>
    if nameKey p ∈ seen then dedupFirstSeen ps seen
    else p :: dedupFirstSeen ps (nameKey p :: seen)

/-! ## Phone normalizer

From `src/utils/webdriver.py`, `extract_phone`.  The three Python regexes are
embedded as deterministic matchers; for these patterns greedy matching with
the optional single-character elements is equivalent to the regex semantics,
because at every optional element the character classes of the two
alternatives are disjoint. -/

/-- The separator class `[-.\s]` of the first phone regex. -/
def isSepChar (c : Char) : Bool := c = '-' || c = '.' || isPySpace c

/-- Consume one character matching `p` if present (regex `X?`). -/
def skipOpt (p : Char → Bool) : List Char → List Char
  | [] => []
  | c :: cs => if p c then cs else c :: cs

/-- Consume exactly `n` digits (regex `\d{n}`), returning them and the rest. -/
def takeDigits : Nat → List Char → Option (List Char × List Char)
  | 0, cs => some ([], cs)
  | _ + 1, [] => none
  | n + 1, c :: cs =>
    if c.isDigit then (takeDigits n cs).map (fun x => (c :: x.1, x.2)) else none

/-- Match `\(?(\d{3})\)?[-.\s]?(\d{3})[-.\s]?(\d{4})` anchored at the start
of `cs`, returning the three digit groups. -/
def matchP1At (cs : List Char) : Option (List Char × List Char × List Char) :=
  match takeDigits 3 (skipOpt (· == '(') cs) with
  | none => none
  | some (a, cs2) =>
    match takeDigits 3 (skipOpt isSepChar (skipOpt (· == ')') cs2)) with
    | none => none
    | some (b, cs5) =>
      match takeDigits 4 (skipOpt isSepChar cs5) with
      | none => none
      | some (c, _) => some (a, b, c)

/-- Consume one expected literal character. -/
def expectChar (ch : Char) : List Char → Option (List Char)
  | [] => none
  | c :: cs => if c == ch then some cs else none

/-- Match `(\d{3})\.(\d{3})\.(\d{4})` anchored at the start of `cs`. -/
def matchP2At (cs : List Char) : Option (List Char × List Char × List Char) :=
  match takeDigits 3 cs with
  | none => none
  | some (a, cs1) =>
    match expectChar '.' cs1 with
    | none => none
    | some cs2 =>
      match takeDigits 3 cs2 with
      | none => none
      | some (b, cs3) =>
        match expectChar '.' cs3 with
        | none => none
        | some cs4 =>
          match takeDigits 4 cs4 with
          | none => none
          | some (c, _) => some (a, b, c)

/-- Match `(\d{10})` anchored at the start of `cs`. -/
def matchP3At (cs : List Char) : Option (List Char) :=
  (takeDigits 10 cs).map (·.1)

/-- `re.search`: try the anchored matcher at each position, left to right. -/
def searchL {α : Type} (f : List Char → Option α) : List Char → Option α
  | [] => f []
  | c :: cs =>
    match f (c :: cs) with
    | some x => some x
    | none => searchL f cs

/-- The formatted output `f"({g1}) {g2}-{g3}"`. -/
def fmtPhone (a b c : List Char) : String :=
  ⟨('(' :: a) ++ (')' :: ' ' :: b) ++ ('-' :: c)⟩

/-- `extract_phone` from `src/utils/webdriver.py`: try the three patterns in
order over the whole text; format the groups of the first match. -/
def extract_phone (text : String) : Option String :=
  if text == "" then none
  else
    match searchL matchP1At text.data with
    | some (a, b, c) => some (fmtPhone a b c)
    | none =>
      match searchL matchP2At text.data with
      | some (a, b, c) => some (fmtPhone a b c)
      | none =>
        match searchL matchP3At text.data with
        | some d => some (fmtPhone (d.take 3) ((d.drop 3).take 3) (d.drop 6))
        | none => none

/-- The spec's output shape: exactly `"(AAA) BBB-CCCC"` with ten digits. -/
def isFormattedPhone (s : String) : Bool :=
  match s.data with
  | '(' :: a1 :: a2 :: a3 :: ')' :: ' ' :: b1 :: b2 :: b3 :: '-' ::
      c1 :: c2 :: c3 :: c4 :: [] =>
    [a1, a2, a3, b1, b2, b3, c1, c2, c3, c4].all Char.isDigit
  | _ => false

/-- A text is phone-shaped when one of the three source patterns matches. -/
def hasPhonePattern (text : String) : Bool :=
  (searchL matchP1At text.data).isSome || (searchL matchP2At text.data).isSome
    || (searchL matchP3At text.data).isSome

/-! ## Coordinate extraction

From `src/utils/webdriver.py`, `extract_coordinates`.  Element attributes are
the association list BeautifulSoup's `element.get` reads from. -/

/-- Numeric value of a digit run. -/
def natValL (l : List Char) : ℕ :=
  l.foldl (fun acc c => acc * 10 + (c.toNat - 48)) 0

/-- Model of the Python `float()` builtin on plain decimal numerals
(optional surrounding whitespace, optional sign, digits with an optional
decimal point; exponents, `inf`/`nan` and underscores are not modelled —
none occur in the behaviour the claims exercise).  `none` models a raised
`ValueError`. -/
def pyFloat (s : String) : Option ℚ :=
  let l0 := pyStripL s.data
  let neg : Bool := l0.head? = some '-'
  let l := if l0.head? = some '+' || l0.head? = some '-' then l0.tail else l0
  let ip := l.takeWhile Char.isDigit
  let rest := l.dropWhile Char.isDigit
  match rest with
  | [] =>
    if ip.isEmpty then none
    else some (mkRat (Int.negOfNat (natValL ip) |> fun n =>
      if neg then n else (natValL ip : ℤ)) 1)
  | '.' :: r =>
    let fp := r.takeWhile Char.isDigit
    let rest2 := r.dropWhile Char.isDigit
    if !rest2.isEmpty then none
    else if ip.isEmpty && fp.isEmpty then none
    else
      let mag : ℕ := natValL ip * 10 ^ fp.length + natValL fp
      some (mkRat (if neg then Int.negOfNat mag else (mag : ℤ)) (10 ^ fp.length))
  | _ => none

/-- Element attributes as read by `element.get`. -/
abbrev Attrs := List (String × String)

/-- `element.get(key)`: the attribute's value, or `None` when absent. -/
def getAttr (attrs : Attrs) (k : String) : Option String :=
  (attrs.find? (fun kv => kv.1 == k)).map (·.2)

/-- Python's `a or b` on optional strings: `b` when `a` is `None` or the
empty (falsy) string. -/
def pyOrStr : Option String → Option String → Option String
  | some s, b => if s == "" then b else some s
  | none, b => b

/-- `element.get('data-latitude') or element.get('data-lat')`. -/
def latRaw (attrs : Attrs) : Option String :=
  pyOrStr (getAttr attrs ("data-latitude")) (getAttr attrs ("data-lat"))

/-- `element.get('data-longitude') or element.get('data-lng') or
element.get('data-lon')`. -/
def lngRaw (attrs : Attrs) : Option String :=
  pyOrStr (getAttr attrs ("data-longitude"))
    (pyOrStr (getAttr attrs ("data-lng")) (getAttr attrs ("data-lon")))

/-- `float(v) if v and v != '0.0' else None`, with `.error` modelling a
raised `ValueError`. -/
def coordVal (v : Option String) : Except Unit (Option ℚ) :=
  match v with
  | none => .ok none
  | some s =>
    if s == "" || s == "0.0" then .ok none
    else
      match pyFloat s with
      | some q => .ok (some q)
      | none => .error ()

/-- `extract_coordinates` from `src/utils/webdriver.py`: both conversions run
inside one `try`; an exception in either yields `(None, None)`. -/
def extract_coordinates (attrs : Attrs) : Option ℚ × Option ℚ :=
  match coordVal (latRaw attrs), coordVal (lngRaw attrs) with
  | .ok a, .ok b => (a, b)
  | _, _ => (none, none)

/-! ## ParishFinder strategy

From `src/extractors/parish_finder.py`.  A `<li class="site">` element is
modelled by the query results the extractor reads from it: its attributes,
the text of its first `div.name` / `div.city` descendants, and — inside its
`div.siteInfo` → `div.title` / `div.linkContainer` blocks — the address
text, phone text and `a.urlLink` href. -/

/-- Query results inside a `div.siteInfo` block. -/
structure SiteInfoElem where
  titleAddress : Option String := none
  titlePhone : Option String := none
  urlLink : Option String := none
  deriving DecidableEq, Repr

/-- Query results on a `<li class="site">` element. -/
structure SiteElem where
  attrs : Attrs := []
  nameDiv : Option String := none
  cityDiv : Option String := none
  siteInfo : Option SiteInfoElem := none
  deriving DecidableEq, Repr

/-- `ParishFinderExtractor._extract_from_site_info`. -/
def extract_from_site_info (si : SiteInfoElem) :
    Option String × Option String × Option String :=
  (si.titleAddress.map clean_text, si.titlePhone.bind extract_phone, si.urlLink)

/-- `ParishFinderExtractor._extract_parish_from_site`. -/
def extract_parish_from_site (site : SiteElem) : Option Parish :=
  match site.nameDiv with
  | none => none
  | some ntext =>
    let name := clean_text ntext
    if validate_parish_name name then
      let info := match site.siteInfo with
        | some si => extract_from_site_info si
        | none => (none, none, none)
      let coords := extract_coordinates site.attrs
      some { name := name, city := site.cityDiv.map clean_text,
             address := info.1, phone := info.2.1, website := info.2.2,
             latitude := coords.1, longitude := coords.2,
             confidence := mkRat 9 10, extraction_method := "parish_finder" }
    else none

/-- `ParishFinderExtractor.extract`, over the document's `li.site` list. -/
def parishFinderExtract (sites : List SiteElem) : List Parish :=
  remove_duplicates (sites.filterMap extract_parish_from_site)

/-! ## Claim C5 -/


/-- A site element carrying only a latitude attribute. -/
def c5site : SiteElem :=
  { attrs := [("data-latitude", "41.123")], nameDiv := some ("St. Mary Parish") }

/-- The record the ParishFinder strategy produces from `c5site`. -/
def c5record : Parish :=
  { name := "St. Mary Parish", latitude := some (mkRat 41123 1000),
    confidence := mkRat 9 10, extraction_method := "parish_finder" }

/-! ## Site types and strategy dispatch

`SiteType` from `src/models.py`; the `EXTRACTORS` registry and
`get_extractor` from `src/extractors/__init__.py`.  Extractor classes are
modelled by their identifiers. -/

/-- The `SiteType` enumeration of `src/models.py`. -/
inductive SiteType where
  | parish_finder
  | card_layout
  | table
  | map
  | generic
  deriving DecidableEq, Repr

/-- The `.value` string of each `SiteType` member. -/
def SiteType.value : SiteType → String
  | .parish_finder => "parish_finder"
  | .card_layout => "card_layout"
  | .table => "table"
  | .map => "map"
  | .generic => "generic"

/-- The four extractor classes of `src/extractors/`. -/
inductive ExtractorId where
  | parish_finder
  | card_layout
  | table
  | generic
  deriving DecidableEq, Repr

/-- The `EXTRACTORS` registry dict of `src/extractors/__init__.py`. -/
def EXTRACTORS : List (String × ExtractorId) :=
  [("parish_finder", ExtractorId.parish_finder),
   ("card_layout", ExtractorId.card_layout),
   ("table", ExtractorId.table),
   ("generic", ExtractorId.generic)]

/-- `get_extractor`: `EXTRACTORS.get(site_type, GenericExtractor)`. -/
def get_extractor (site_type : String) : ExtractorId :=
  (EXTRACTORS.lookup site_type).getD ExtractorId.generic

/-- The dispatch the code actually implements, per SiteType tag: the Map tag
has no strategy of its own and resolves to the Generic fallback.  (Stated for
the amended claim.) -/
def strategyFor : SiteType → ExtractorId
  | .parish_finder => ExtractorId.parish_finder
  | .card_layout => ExtractorId.card_layout
  | .table => ExtractorId.table
  | .map => ExtractorId.generic
  | .generic => ExtractorId.generic

/-! ## Extraction orchestrator

From `src/pipeline.py`, `ParishExtractionPipeline.extract_parishes_from_directory`
(lines 136–176).  The page-load, site-type classification and strategy
execution steps all run inside one `try`; they are modelled as `Except`-valued
collaborators over an abstract document type, a raised exception being
`.error` with the exception's string. -/

/-- The `ExtractionResult` dataclass of `src/models.py` (the float
`processing_time` is set by the caller after the orchestrator returns and is
modelled as ℚ). -/
structure ExtractionResult where
  diocese_name : String
  diocese_url : String := ""
  directory_url : String := ""
  parishes : List Parish := []
  site_type : SiteType := SiteType.generic
  success : Bool := true
  errors : List String := []
  saved_count : ℕ := 0
  processing_time : ℚ := 0
  deriving DecidableEq, Repr

/-- The outcome built in the orchestrator's `except` branch:
empty record list, Generic site type, `success=False`, and the descriptive
string `f"Extraction error: {str(e)}"` in the error list. -/
def extractionFailure (dn du dir e : String) : ExtractionResult :=
  { diocese_name := dn, diocese_url := du, directory_url := dir,
    site_type := SiteType.generic, success := false,
    errors := ["Extraction error: " ++ e] }

/-- The outcome built on the success path: `success = len(parishes) > 0`. -/
def extractionSuccess (dn du dir : String) (st : SiteType)
    (ps : List Parish) : ExtractionResult :=
  { diocese_name := dn, diocese_url := du, directory_url := dir,
    parishes := ps, site_type := st, success := decide (0 < ps.length) }

/-- `extract_parishes_from_directory`: load the page, classify it, run the
dispatched strategy; any exception from these steps is caught and turned
into the failure outcome — the orchestrator itself never raises (it is a
total function). -/
def extract_parishes_from_directory {Doc : Type}
    (dn du dir : String) (load : Except String Doc)
    (detect : Doc → Except String SiteType)
    (runStrategy : SiteType → Doc → Except String (List Parish)) :
    ExtractionResult :=
  match load with
  | .error e => extractionFailure dn du dir e
  | .ok soup =>
    match detect soup with
    | .error e => extractionFailure dn du dir e
    | .ok st =>
      match runStrategy st soup with
      | .error e => extractionFailure dn du dir e
      | .ok ps => extractionSuccess dn du dir st ps

/-! ## Table strategy

From `src/extractors/table.py`.  A table is modelled by its `find_all('tr')`
rows; a row by its `find_all(['td','th'])` cells; a cell by its text and the
hrefs of its anchors (the code reads only `get_text()` and the first
`a[href]`). -/

/-- A table cell: its `get_text()` and its anchors' hrefs in order. -/
structure Cell where
  text : String := ""
  hrefs : List String := []
  deriving DecidableEq, Repr

/-- A table row: its cells in order. -/
structure Row where
  cells : List Cell := []
  deriving DecidableEq, Repr

/-- A table: its rows in order. -/
structure HtmlTable where
  rows : List Row := []
  deriving DecidableEq, Repr

/-- A regex word character (`\w`). -/
def wordCharB (c : Char) : Bool := c.isAlphanum || c = '_'

/-- Case-insensitive match of the word `w` at position `i` of `s` with `\b`
boundaries on both sides. -/
def wordOccursAt (w : List Char) (s : List Char) (i : ℕ) : Bool :=
  (pyLowerL ((s.drop i).take w.length) == w) &&
  (i == 0 || !(wordCharB (s.getD (i - 1) ' '))) &&
  (i + w.length == s.length || !(wordCharB (s.getD (i + w.length) ' ')))

/-- `re.search(r'\b(?:w1|w2|...)\b', s, re.I)` for one alternative `w`. -/
def wordSearch (s : List Char) (w : String) : Bool :=
  (List.range (s.length + 1)).any (fun i => wordOccursAt w.data s i)

/-- The street-suffix alternatives of `TableExtractor._looks_like_address`. -/
def streetWords : List String :=
  ["st", "street", "ave", "avenue", "rd", "road", "dr", "drive", "ln",
   "lane", "blvd", "boulevard", "way", "circle", "court", "ct"]

/-- `TableExtractor._looks_like_address`. -/
def looks_like_address (text : String) : Bool :=
  if text == "" || (pyStrip text).length < 5 then false
  else
    (text.data.any Char.isDigit) &&
    streetWords.any (fun w => wordSearch text.data w)

/-- `TableExtractor._looks_like_city`. -/
def looks_like_city (text : String) : Bool :=
  if text == "" then false
  else
    let t := pyStrip text
    decide (5 < t.length) && decide (t.length < 30) &&
    !(t.data.any Char.isDigit) &&
    !(looks_like_address t) &&
    !(["http", "www", "@", ".com"].any (fun w => pyContains (pyLower t) w))

/-- The four per-row fields captured on first match while scanning the
cells after the name cell. -/
structure RowAcc where
  address : Option String := none
  phone : Option String := none
  city : Option String := none
  website : Option String := none
  deriving DecidableEq, Repr

/-- The `for cell in cells[1:]` loop of
`TableExtractor._extract_parish_from_row`: each field is captured only on
its first match. -/
def scanCells : List Cell → RowAcc → RowAcc
  | [], acc => acc
  | cell :: rest, acc =>
    let a1 := if acc.phone = none then
        { acc with phone := extract_phone cell.text } else acc
    let a2 := if a1.address = none ∧ looks_like_address cell.text = true then
        { a1 with address := some (clean_text cell.text) } else a1
    let a3 := if a2.city = none ∧ looks_like_city cell.text = true then
        { a2 with city := some (clean_text cell.text) } else a2
    let a4 := if a3.website = none then
        match cell.hrefs.head? with
        | some h => if ("http").data.isPrefixOf h.data then
            { a3 with website := some h } else a3
        | none => a3
      else a3
    scanCells rest a4

/-- `TableExtractor._extract_parish_from_row`: the first cell is the name
(row skipped when it fails validation); the remaining cells are scanned for
phone, address, city and website. -/
def extract_parish_from_row (row : Row) : Option Parish :=
  match row.cells with
  | [] => none
  | c0 :: rest =>
    let name := clean_text c0.text
    if validate_parish_name name then
      let acc := scanCells rest {}
      some { name := name, city := acc.city, address := acc.address,
             phone := acc.phone, website := acc.website,
             confidence := mkRat 17 20, extraction_method := "table" }
    else none

/-- `TableExtractor._extract_parishes_from_table`:
`data_rows = rows[1:] if len(rows) > 1 else rows`. -/
def extract_parishes_from_table (t : HtmlTable) : List Parish :=
  if t.rows = [] then []
  else
    (if 1 < t.rows.length then t.rows.tail else t.rows).filterMap
      extract_parish_from_row

/-- `table.get_text()`, modelled as the concatenation of the cell texts. -/
def tableGetText (t : HtmlTable) : String :=
  ⟨(t.rows.map (fun r => (r.cells.map (fun c => c.text.data)).flatten)).flatten⟩

/-- `TableExtractor.extract` over the document's tables: keep tables whose
text mentions parish/church/name, extract each, deduplicate. -/
def tableExtract (tables : List HtmlTable) : List Parish :=
  remove_duplicates
    (((tables.filter (fun t => ["parish", "church", "name"].any
        (fun kw => pyContains (pyLower (tableGetText t)) kw))).map
      extract_parishes_from_table).flatten)

/-! ## Claim C7 -/


/-- A table with a single row holding a valid parish name. -/
def c7singleRowTable : HtmlTable :=
  { rows := [{ cells := [{ text := "St. Mary Parish" }] }] }

/-- A two-row table: header row and one data row. -/
def c7twoRowTable : HtmlTable :=
  { rows := [{ cells := [{ text := "Parish Name" }] },
             { cells := [{ text := "St. Joseph Church" }] }] }

/-! ## Site classifier

From `src/utils/ai_analysis.py`, `detect_site_type`.  A document is modelled
by its serialized HTML string (`str(soup)`) and its element list in document
order; an element by tag, class attribute, id attribute and `get_text()`.
A pattern given for `class_` is modelled as matching against the element's
full class-attribute string. -/

/-- A document element as queried by the classifier and the Generic
strategy: tag, class and id attributes, `get_text()`, the texts of its
h1–h5 heading descendants in document order, and its anchors' hrefs. -/
structure Elem where
  tag : String := "div"
  classAttr : Option String := none
  idAttr : Option String := none
  textContent : String := ""
  headings : List String := []
  links : List String := []
  deriving DecidableEq, Repr

/-- A parsed document: serialized HTML plus elements in document order. -/
structure Doc where
  html : String := ""
  elems : List Elem := []
  deriving DecidableEq, Repr

/-- The whitespace-separated class tokens of an element. -/
def classTokens (e : Elem) : List String :=
  match e.classAttr with
  | none => []
  | some c => (pySplitWsL c.data).map (fun l => (⟨l⟩ : String))

/-- CSS class membership (`.tok` / `class_='tok'`). -/
def hasClassToken (e : Elem) (tok : String) : Bool :=
  (classTokens e).contains tok

/-- `a` occurring before `b` (regex `a.*b`) somewhere in `s`. -/
def containsSeqL (a b s : List Char) : Bool :=
  (List.range (s.length + 1)).any (fun i =>
    a.isPrefixOf (s.drop i) && containsL (s.drop (i + a.length)) b)

/-- `re.search(r'(card.*location|location.*card|parish.*card)', s)` —
case-sensitive, as in the source (no `re.I` flag). -/
def cardClassRegex (s : List Char) : Bool :=
  containsSeqL ("card").data ("location").data s ||
  containsSeqL ("location").data ("card").data s ||
  containsSeqL ("parish").data ("card").data s

/-- A `div` whose class attribute matches the card regex. -/
def isCardRegexDiv (e : Elem) : Bool :=
  e.tag == "div" &&
  (match e.classAttr with
   | some c => cardClassRegex c.data
   | none => false)

/-- CSS attribute-substring selector `[class*="sub"]`. -/
def classSubstr (e : Elem) (sub : String) : Bool :=
  match e.classAttr with
  | some c => containsL c.data sub.data
  | none => false

/-- The ParishFinder indicators (step 1 of `detect_site_type`). -/
def finderCond (d : Doc) (url : String) : Bool :=
  pyContains (pyLower url) ("parishfinder") ||
  pyContains (pyLower url) ("parish-finder") ||
  pyContains (pyLower url) ("find-parish") ||
  pyContains (pyLower d.html) ("finder.js") ||
  pyContains (pyLower d.html) ("parish finder") ||
  pyContains (pyLower d.html) ("findercore") ||
  d.elems.any (fun e => e.tag == "li" && hasClassToken e ("site"))

/-- The CardLayout indicators (step 2 of `detect_site_type`): the
case-sensitive card regex on `div` classes, the exact class string
`col-lg location` on a `div`, or the `parish-card`/`location-card`
class-substring selectors. -/
def cardCond (d : Doc) : Bool :=
  d.elems.any isCardRegexDiv ||
  d.elems.any (fun e => e.tag == "div" && e.classAttr == some ("col-lg location")) ||
  d.elems.any (fun e => classSubstr e ("parish-card")) ||
  d.elems.any (fun e => classSubstr e ("location-card"))

/-- The Table indicator (step 3): some `table` element whose text mentions
parish/church/name/address. -/
def tableCond (d : Doc) : Bool :=
  d.elems.any (fun e => e.tag == "table" &&
    ["parish", "church", "name", "address"].any
      (fun kw => pyContains (pyLower e.textContent) kw))

/-- The Map indicators (step 4). -/
def mapCond (d : Doc) : Bool :=
  pyContains (pyLower d.html) ("leaflet") ||
  pyContains (pyLower d.html) ("google.maps") ||
  pyContains (pyLower d.html) ("mapbox") ||
  pyContains (pyLower d.html) ("parish-map") ||
  d.elems.any (fun e => e.idAttr == some ("map")) ||
  d.elems.any (fun e => hasClassToken e ("map"))

/-- `detect_site_type`: the ordered first-match-wins decision list. -/
def detect_site_type (d : Doc) (url : String) : SiteType :=
  if finderCond d url then SiteType.parish_finder
  else if cardCond d then SiteType.card_layout
  else if tableCond d then SiteType.table
  else if mapCond d then SiteType.map
  else SiteType.generic

/-- The claim's CardLayout condition, stated from the spec's words: the
combining pattern is applied *case-insensitively* (modelled as matching the
lower-cased class string).  For comparison with `cardCond`. -/
def cardCondSpec (d : Doc) : Bool :=
  d.elems.any (fun e => e.tag == "div" &&
    (match e.classAttr with
     | some c => cardClassRegex (pyLowerL c.data)
     | none => false)) ||
  d.elems.any (fun e => e.tag == "div" && e.classAttr == some ("col-lg location")) ||
  d.elems.any (fun e => classSubstr e ("parish-card")) ||
  d.elems.any (fun e => classSubstr e ("location-card"))

/-! ## Claim C8 -/


/-- A document whose only element is a `div` with class `CARD-LOCATION`. -/
def c8doc : Doc :=
  { html := "<div class=\"CARD-LOCATION\"></div>",
    elems := [{ tag := "div", classAttr := some ("CARD-LOCATION") }] }

/-- A document whose only element is a `div` with class `card-location`. -/
def c8docLower : Doc :=
  { html := "<div class=\"card-location\"></div>",
    elems := [{ tag := "div", classAttr := some ("card-location") }] }

/-! ## Generic fallback strategy

From `src/extractors/generic.py`. -/

/-- The selector kinds used by `GenericExtractor.extract`. -/
inductive GSel where
  | classSub (s : String)
  | tagIs (s : String)
  | classTok (s : String)
  | idSub (s : String)
  | classOrIdSub (s : String)
  deriving DecidableEq, Repr

/-- CSS selector matching for the selector kinds. -/
def matchesSel : GSel → Elem → Bool
  | .classSub s, e => classSubstr e s
  | .tagIs s, e => e.tag == s
  | .classTok s, e => hasClassToken e s
  | .idSub s, e =>
    (match e.idAttr with
     | some i => containsL i.data s.data
     | none => false)
  | .classOrIdSub s, e =>
    classSubstr e s ||
    (match e.idAttr with
     | some i => containsL i.data s.data
     | none => false)

/-- The source's selector list, in its order: `[class*='parish']`,
`[class*='church']`, `[class*='location']`, `article`, `.entry`,
`[id*='parish']`, `.content-item`, `.post`. -/
def genericSelectors : List GSel :=
  [.classSub ("parish"), .classSub ("church"), .classSub ("location"),
   .tagIs ("article"), .classTok ("entry"), .idSub ("parish"),
   .classTok ("content-item"), .classTok ("post")]

/-- The claim's selector list: seven selectors, class and id substring
merged per keyword, `[id*='parish']` not listed separately.  (Stated from
the spec's words, for comparison with `genericSelectors`.) -/
def claimSelectors : List GSel :=
  [.classOrIdSub ("parish"), .classOrIdSub ("church"),
   .classOrIdSub ("location"), .tagIs ("article"), .classTok ("entry"),
   .classTok ("content-item"), .classTok ("post")]

/-- Non-empty stripped lines of `get_text().split('\n')`. -/
def textLines (s : String) : List String :=
  (((s.data.splitOnP (fun c => c = '\n')).map pyStripL).filter
    (fun l => l ≠ [])).map (fun l => (⟨l⟩ : String))

/-- `GenericExtractor._extract_city_from_element`: the first of lines 2–4
that is short, free of `@`/`http`/parentheses, and at most 3 words. -/
def extract_city_from_element (e : Elem) : Option String :=
  ((((textLines e.textContent).drop 1).take 3).find?
    (fun line => decide (line.length < 30) &&
      !(["@", "http", "(", ")"].any (fun w => pyContains line w)) &&
      decide ((pySplitWsL line.data).length ≤ 3))).map clean_text

/-- The street suffixes of `GenericExtractor._extract_address_from_element`
(a shorter list than the Table strategy's). -/
def genericStreetWords : List String :=
  ["st", "street", "ave", "avenue", "rd", "road", "dr", "drive"]

/-- `GenericExtractor._extract_address_from_element`: the first line with a
digit, a street suffix and length > 10. -/
def extract_address_from_element (e : Elem) : Option String :=
  ((textLines e.textContent).find?
    (fun line => (line.data.any Char.isDigit) &&
      genericStreetWords.any (fun w => wordSearch line.data w) &&
      decide (10 < line.length))).map clean_text

/-- `GenericExtractor._extract_website_from_element`: the first `http` link
not referencing facebook/twitter/instagram/youtube. -/
def extract_website_from_element (e : Elem) : Option String :=
  e.links.find? (fun href => ("http").data.isPrefixOf href.data &&
    !(["facebook", "twitter", "instagram", "youtube"].any
      (fun w => pyContains (pyLower href) w)))

/-- `GenericExtractor._extract_parish_from_element`: name from the first
heading (element skipped when absent or invalid), then phone, website, city
and address heuristics. -/
def extract_parish_from_element (e : Elem) : Option Parish :=
  match e.headings.head? with
  | none => none
  | some h =>
    let name := clean_text h
    if validate_parish_name name then
      some { name := name,
             city := extract_city_from_element e,
             address := extract_address_from_element e,
             phone := extract_phone e.textContent,
             website := extract_website_from_element e,
             confidence := mkRat 2 5, extraction_method := "generic" }
    else none

/-- The records one selector yields: at most the first 15 matched elements
are examined. -/
def selRecords (d : Doc) (sel : GSel) : List Parish :=
  ((d.elems.filter (matchesSel sel)).take 15).filterMap
    extract_parish_from_element

/-- The `for selector in selectors` loop of `GenericExtractor.extract`:
skip selectors matching no element; extract from the first 15 matches; stop
as soon as the accumulated record list is non-empty. -/
def genericLoop (d : Doc) : List GSel → List Parish → List Parish
  | [], acc => acc
  | sel :: rest, acc =>
    if d.elems.filter (matchesSel sel) = [] then genericLoop d rest acc
    else
      let acc2 := acc ++ selRecords d sel
      if acc2 = [] then genericLoop d rest acc2 else acc2

/-- `GenericExtractor.extract`. -/
def genericExtract (d : Doc) : List Parish :=
  remove_duplicates (genericLoop d genericSelectors [])

/-- The spec-style description of the loop: the records of the first
selector yielding any records. -/
def firstYieldingRecords (d : Doc) : List GSel → List Parish
  | [] => []
  | sel :: rest =>
    if selRecords d sel = [] then firstYieldingRecords d rest
    else selRecords d sel

/-! ## Claim C9 -/


/-- A document with an element whose *id* contains "parish" and an element
with class `entry`, each containing a valid parish heading. -/
def c9doc : Doc :=
  { elems :=
      [{ tag := "div", idAttr := some ("parish-list"),
         headings := ["St. Mary Parish"], textContent := "St. Mary Parish" },
       { tag := "div", classAttr := some ("entry"),
         headings := ["Holy Trinity Church"],
         textContent := "Holy Trinity Church" }] }

/-! ## Claim C1 -/


/-- **C1** — For every string `name`, the plausibility validator accepts it iff
its trimmed length is at least 3, it contains no skip-term as a
case-insensitive substring, and it contains at least one parish indicator;
moreover (second conjunct) any name containing a skip-term is rejected even
when it also contains an indicator: skip-terms take precedence. -/
theorem c1_validator_accepts_iff (name : String) :
    (validate_parish_name name = true ↔
      (3 ≤ (pyStrip name).length ∧
       (∀ term ∈ skip_terms, ¬ pyContains (pyLower name) term = true) ∧
       (∃ ind ∈ parish_indicators, pyContains (pyLower name) ind = true))) ∧
    (∀ term ∈ skip_terms, pyContains (pyLower name) term = true →
       validate_parish_name name = false) := by
  have hempty : name = "" → (pyStrip name).length = 0 := by
    intro h; subst h; rfl
  have hval : validate_parish_name name =
      ((!(name == "" || decide ((pyStrip name).length < 3))) &&
       (!skip_terms.any (fun term => pyContains (pyLower name) term)) &&
       parish_indicators.any (fun ind => pyContains (pyLower name) ind)) := by
    unfold validate_parish_name
    cases h1 : (name == "" || decide ((pyStrip name).length < 3)) <;>
      cases h2 : skip_terms.any (fun term => pyContains (pyLower name) term) <;>
      simp [h1, h2]
  constructor
  · rw [hval]
    simp only [Bool.and_eq_true, Bool.not_eq_true', Bool.or_eq_false_iff,
      decide_eq_false_iff_not, not_lt, beq_eq_false_iff_ne, ne_eq,
      List.any_eq_false, List.any_eq_true]
    constructor
    · rintro ⟨⟨⟨-, hlen⟩, hskip⟩, hind⟩
      exact ⟨hlen, fun t ht hc => by simp [hskip t ht] at hc, hind⟩
    · rintro ⟨hlen, hskip, hind⟩
      refine ⟨⟨⟨?_, hlen⟩, fun t ht => ?_⟩, hind⟩
      · intro h; have := hempty h; omega
      · cases hc : pyContains (pyLower name) t
        · simp
        · exact absurd hc (hskip t ht)
  · intro term hterm hc
    rw [hval]
    have hskip : skip_terms.any (fun t => pyContains (pyLower name) t) = true :=
      List.any_eq_true.mpr ⟨term, hterm, hc⟩
    simp [hskip]

/-- Witness for C1: "Parish Directory" contains the indicator "parish" but
also the skip-term "directory", and the validator rejects it. -/
theorem c1_validator_accepts_iff_witness :
    validate_parish_name ("Parish Directory") = false :=
  (c1_validator_accepts_iff ("Parish Directory")).2 ("directory") (by decide)
    (by decide)

theorem removeDupsGo_eq_dedup (l : List Parish) :
    ∀ seen, removeDupsGo l seen =
      dedupFirstSeen (l.filter fun p => validate_parish_name p.name) seen := by
  induction l with
  | nil => intro seen; rfl
  | cons p ps ih =>
    intro seen
    by_cases hv : validate_parish_name p.name = true
    · rw [List.filter_cons, if_pos (by simpa using hv)]
      by_cases hs : nameKey p ∈ seen
      · rw [removeDupsGo, if_neg (by simp [hs]), dedupFirstSeen, if_pos hs]
        exact ih seen
      · rw [removeDupsGo, if_pos ⟨hs, hv⟩, dedupFirstSeen, if_neg hs]
        exact congrArg (p :: ·) (ih _)
    · rw [List.filter_cons, if_neg (by simpa using hv), removeDupsGo,
        if_neg (by tauto)]
      exact ih seen

theorem mem_removeDupsGo (l : List Parish) :
    ∀ seen p, p ∈ removeDupsGo l seen →
      validate_parish_name p.name = true ∧ nameKey p ∉ seen := by
  induction l with
  | nil => intro seen p h; exact absurd h (by simp [removeDupsGo])
  | cons q qs ih =>
    intro seen p h
    rw [removeDupsGo] at h
    split at h
    · rename_i hcond
      rcases List.mem_cons.mp h with rfl | h
      · exact ⟨hcond.2, hcond.1⟩
      · have := ih _ p h
        exact ⟨this.1, fun hmem => this.2 (List.mem_cons_of_mem _ hmem)⟩
    · exact ih _ p h

theorem nodup_keys_removeDupsGo (l : List Parish) :
    ∀ seen, ((removeDupsGo l seen).map nameKey).Nodup := by
  induction l with
  | nil => intro seen; simp [removeDupsGo]
  | cons p ps ih =>
    intro seen
    rw [removeDupsGo]
    split
    · simp only [List.map_cons, List.nodup_cons]
      refine ⟨?_, ih _⟩
      intro hmem
      obtain ⟨q, hq, hkey⟩ := List.mem_map.mp hmem
      exact (mem_removeDupsGo _ _ _ hq).2 (by rw [hkey]; exact List.mem_cons_self _ _)
    · exact ih seen

theorem removeDupsGo_sublist (l : List Parish) :
    ∀ seen, List.Sublist (removeDupsGo l seen) l := by
  induction l with
  | nil => intro _; simp [removeDupsGo]
  | cons p ps ih =>
    intro seen
    rw [removeDupsGo]
    split
    · exact (ih _).cons₂ p
    · exact (ih _).cons p

theorem removeDupsGo_fixed (l : List Parish) :
    ∀ seen, (∀ p ∈ l, validate_parish_name p.name = true) →
      (∀ p ∈ l, nameKey p ∉ seen) →
      (l.map nameKey).Nodup →
      removeDupsGo l seen = l := by
  induction l with
  | nil => intros; rfl
  | cons p ps ih =>
    intro seen hval hseen hnd
    rw [removeDupsGo,
      if_pos ⟨hseen p (List.mem_cons_self _ _), hval p (List.mem_cons_self _ _)⟩]
    rw [List.map_cons, List.nodup_cons] at hnd
    refine congrArg (p :: ·) (ih _ ?_ ?_ hnd.2)
    · exact fun q hq => hval q (List.mem_cons_of_mem _ hq)
    · intro q hq
      simp only [List.mem_cons, not_or]
      refine ⟨fun hkey => hnd.1 ?_, hseen q (List.mem_cons_of_mem _ hq)⟩
      exact hkey ▸ List.mem_map_of_mem nameKey hq

/-! ## Claim C2 -/


/-- **C2** — `remove_duplicates` returns, in original order, exactly the first
occurrence of each case-insensitive trimmed name among the candidates whose
names pass the plausibility test (first conjunct: it equals the spec's
filter-then-first-seen-wins scan); it merges no fields across duplicates
(second conjunct: its output is a sublist of its input, every kept record
unchanged); and it is idempotent (third conjunct). -/
theorem c2_remove_duplicates_spec (l : List Parish) :
    remove_duplicates l =
      dedupFirstSeen (l.filter fun p => validate_parish_name p.name) [] ∧
    List.Sublist (remove_duplicates l) l ∧
    remove_duplicates (remove_duplicates l) = remove_duplicates l := by
  refine ⟨removeDupsGo_eq_dedup l [], removeDupsGo_sublist l [], ?_⟩
  unfold remove_duplicates
  exact removeDupsGo_fixed _ []
    (fun p hp => (mem_removeDupsGo l [] p hp).1)
    (fun p _ => List.not_mem_nil _)
    (nodup_keys_removeDupsGo l [])

theorem takeDigits_spec :
    ∀ (n : Nat) (cs d r : List Char), takeDigits n cs = some (d, r) →
      d.length = n ∧ d.all Char.isDigit = true := by
  intro n
  induction n with
  | zero =>
    intro cs d r h
    simp only [takeDigits, Option.some_inj, Prod.mk.injEq] at h
    obtain ⟨h1, h2⟩ := h
    subst h1
    exact ⟨rfl, rfl⟩
  | succ n ih =>
    intro cs d r h
    cases cs with
    | nil => exact absurd h (by simp [takeDigits])
    | cons c cs =>
      rw [takeDigits] at h
      split at h
      · rename_i hdig
        cases htd : takeDigits n cs with
        | none => rw [htd] at h; exact absurd h (by simp)
        | some x =>
          rw [htd] at h
          obtain ⟨d', r'⟩ := x
          simp only [Option.map_some', Option.some_inj, Prod.mk.injEq] at h
          obtain ⟨h1, h2⟩ := h
          subst h1
          have := ih cs d' r' htd
          simp [this.1, List.all_cons, hdig, this.2]
      · exact absurd h (by simp)

theorem list_len4 {α : Type} {l : List α} (h : l.length = 4) :
    ∃ a b c d, l = [a, b, c, d] := by
  match l, h with
  | [a, b, c, d], _ => exact ⟨a, b, c, d, rfl⟩

theorem fmtPhone_formatted {a b c : List Char}
    (ha : a.length = 3) (hb : b.length = 3) (hc : c.length = 4)
    (hda : a.all Char.isDigit = true) (hdb : b.all Char.isDigit = true)
    (hdc : c.all Char.isDigit = true) :
    isFormattedPhone (fmtPhone a b c) = true := by
  obtain ⟨a1, a2, a3, rfl⟩ := List.length_eq_three.mp ha
  obtain ⟨b1, b2, b3, rfl⟩ := List.length_eq_three.mp hb
  obtain ⟨c1, c2, c3, c4, rfl⟩ := list_len4 hc
  simp only [List.all_cons, List.all_nil, Bool.and_eq_true] at hda hdb hdc
  simp only [isFormattedPhone, fmtPhone]
  simp [hda.1, hda.2.1, hda.2.2.1, hdb.1, hdb.2.1, hdb.2.2.1,
    hdc.1, hdc.2.1, hdc.2.2.1, hdc.2.2.2.1]

theorem matchP1At_groups {cs a b c : List Char}
    (h : matchP1At cs = some (a, b, c)) :
    a.length = 3 ∧ b.length = 3 ∧ c.length = 4 ∧
    a.all Char.isDigit = true ∧ b.all Char.isDigit = true ∧
    c.all Char.isDigit = true := by
  rw [matchP1At] at h
  split at h
  · exact absurd h (by simp)
  · rename_i a' cs2 h1
    split at h
    · exact absurd h (by simp)
    · rename_i b' cs5 h2
      split at h
      · exact absurd h (by simp)
      · rename_i c' rest h3
        simp only [Option.some_inj, Prod.mk.injEq] at h
        obtain ⟨rfl, rfl, rfl⟩ := h
        have s1 := takeDigits_spec 3 _ _ _ h1
        have s2 := takeDigits_spec 3 _ _ _ h2
        have s3 := takeDigits_spec 4 _ _ _ h3
        exact ⟨s1.1, s2.1, s3.1, s1.2, s2.2, s3.2⟩

theorem matchP2At_groups {cs a b c : List Char}
    (h : matchP2At cs = some (a, b, c)) :
    a.length = 3 ∧ b.length = 3 ∧ c.length = 4 ∧
    a.all Char.isDigit = true ∧ b.all Char.isDigit = true ∧
    c.all Char.isDigit = true := by
  rw [matchP2At] at h
  split at h
  · exact absurd h (by simp)
  · rename_i a' cs1 h1
    split at h
    · exact absurd h (by simp)
    · rename_i cs2 _
      split at h
      · exact absurd h (by simp)
      · rename_i b' cs3 h2
        split at h
        · exact absurd h (by simp)
        · rename_i cs4 _
          split at h
          · exact absurd h (by simp)
          · rename_i c' rest h3
            simp only [Option.some_inj, Prod.mk.injEq] at h
            obtain ⟨rfl, rfl, rfl⟩ := h
            have s1 := takeDigits_spec 3 _ _ _ h1
            have s2 := takeDigits_spec 3 _ _ _ h2
            have s3 := takeDigits_spec 4 _ _ _ h3
            exact ⟨s1.1, s2.1, s3.1, s1.2, s2.2, s3.2⟩

theorem searchL_some {α : Type} {f : List Char → Option α} :
    ∀ {cs : List Char} {x : α}, searchL f cs = some x → ∃ t, f t = some x := by
  intro cs
  induction cs with
  | nil => intro x h; exact ⟨[], h⟩
  | cons c cs ih =>
    intro x h
    rw [searchL] at h
    split at h
    · rename_i y hy
      exact ⟨c :: cs, hy.trans (by rw [h])⟩
    · exact ih h

/-! ## Claim C10 -/


/-- **C10** — For every input string, the phone normalizer returns `none`
exactly when no phone pattern matches the text, and every returned value has
exactly the shape `"(AAA) BBB-CCCC"` built from ten digits — never the raw
matched text or any other format. -/
theorem c10_extract_phone_shape (text : String) :
    (extract_phone text = none ↔ hasPhonePattern text = false) ∧
    (∀ s, extract_phone text = some s → isFormattedPhone s = true) := by
  by_cases h0 : text = ""
  · subst h0
    refine ⟨by decide, fun s hs => ?_⟩
    rw [show extract_phone ("") = none by decide] at hs
    exact Option.noConfusion hs
  · have hbeq : (text == "") = false := beq_eq_false_iff_ne.mpr h0
    unfold extract_phone hasPhonePattern
    rw [hbeq]
    simp only [Bool.false_eq_true, if_false]
    cases e1 : searchL matchP1At text.data with
    | some x =>
      obtain ⟨a, b, c⟩ := x
      constructor
      · simp
      · intro s hs
        simp only [Option.some_inj] at hs
        obtain ⟨t, ht⟩ := searchL_some e1
        obtain ⟨l1, l2, l3, d1, d2, d3⟩ := matchP1At_groups ht
        exact hs ▸ fmtPhone_formatted l1 l2 l3 d1 d2 d3
    | none =>
      cases e2 : searchL matchP2At text.data with
      | some x =>
        obtain ⟨a, b, c⟩ := x
        constructor
        · simp [e2]
        · intro s hs
          simp only [Option.some_inj] at hs
          obtain ⟨t, ht⟩ := searchL_some e2
          obtain ⟨l1, l2, l3, d1, d2, d3⟩ := matchP2At_groups ht
          exact hs ▸ fmtPhone_formatted l1 l2 l3 d1 d2 d3
      | none =>
        cases e3 : searchL matchP3At text.data with
        | some d =>
          constructor
          · simp [e2, e3]
          · intro s hs
            simp only [Option.some_inj] at hs
            obtain ⟨t, ht⟩ := searchL_some e3
            have hd : d.length = 10 ∧ d.all Char.isDigit = true := by
              rw [matchP3At] at ht
              cases htd : takeDigits 10 t with
              | none => rw [htd] at ht; exact absurd ht (by simp)
              | some x =>
                rw [htd] at ht
                obtain ⟨d', r'⟩ := x
                simp only [Option.map_some', Option.some_inj] at ht
                have := takeDigits_spec 10 t d' r' htd
                simpa [← ht] using this
            have hall := List.all_eq_true.mp hd.2
            refine hs ▸ fmtPhone_formatted ?_ ?_ ?_ ?_ ?_ ?_
            · simp [List.length_take, hd.1]
            · simp [List.length_take, List.length_drop, hd.1]
            · simp [List.length_drop, hd.1]
            · exact List.all_eq_true.mpr fun x hx =>
                hall x (List.take_subset _ _ hx)
            · exact List.all_eq_true.mpr fun x hx =>
                hall x (List.drop_subset _ _ (List.take_subset _ _ hx))
            · exact List.all_eq_true.mpr fun x hx =>
                hall x (List.drop_subset _ _ hx)
        | none =>
          constructor
          · simp [e2, e3]
          · intro s hs
            exact absurd hs (by simp [e2, e3])

/-- Witness for C10: a text with a dash-separated phone number yields the
normalized format, which satisfies the shape predicate. -/
theorem c10_extract_phone_shape_witness :
    isFormattedPhone ("(216) 555-1234") = true :=
  (c10_extract_phone_shape ("Call 216-555-1234 today")).2 ("(216) 555-1234")
    (by decide)

/-! ## Claim C6 -/


/-- **C6 counterexample** — the attribute string `"0"` holds a value of
exactly zero (`float("0") = 0.0`), yet the parsed latitude is the present
number `0.0`, not absent: the sentinel test compares against the literal
string `"0.0"` only. -/
theorem c6_zero_value_counterexample :
    pyFloat ("0") = some (mkRat 0 1) ∧
    (extract_coordinates [("data-latitude", "0"), ("data-longitude", "41.5")]).1
      = some (mkRat 0 1) := by
  constructor <;> decide

/-- **C6 (amended)** — only the literal attribute string `"0.0"` is the
absent-sentinel: whenever the raw latitude (resp. longitude) attribute value
is exactly `"0.0"`, the parsed coordinate is `none`; other encodings of zero
such as `"0"` parse to the number `0.0` (see the counterexample). -/
theorem c6_zero_sentinel_amended (attrs : Attrs) :
    (latRaw attrs = some ("0.0") → (extract_coordinates attrs).1 = none) ∧
    (lngRaw attrs = some ("0.0") → (extract_coordinates attrs).2 = none) := by
  constructor
  · intro h
    unfold extract_coordinates
    rw [h]
    cases hl : coordVal (lngRaw attrs) with
    | ok b => rfl
    | error e => rfl
  · intro h
    unfold extract_coordinates
    rw [h]
    cases hl : coordVal (latRaw attrs) with
    | ok b => rfl
    | error e => rfl

/-- Witness for the amended C6 at a concrete element. -/
theorem c6_zero_sentinel_amended_witness :
    (extract_coordinates [("data-latitude", "0.0"), ("data-longitude", "10.5")]).1
      = none :=
  (c6_zero_sentinel_amended [("data-latitude", "0.0"), ("data-longitude", "10.5")]).1
    (by decide)

/-- **C5 counterexample** — a `li.site` element with `data-latitude="41.123"`
and no longitude attribute yields a pipeline record whose latitude is present
while its longitude is absent: the both-present-or-both-absent invariant
fails. -/
theorem c5_coords_counterexample :
    ∃ p ∈ parishFinderExtract [c5site],
      p.latitude.isSome = true ∧ p.longitude = none := by
  decide

/-- **C5 (amended)** — latitude and longitude are not coupled: every record
the ParishFinder strategy produces carries verbatim the pair computed by
`extract_coordinates` on its site element, each axis parsed independently
(so one may be present without the other, as the counterexample shows). -/
theorem c5_coords_amended (sites : List SiteElem) :
    ∀ p ∈ parishFinderExtract sites, ∃ site ∈ sites,
      (p.latitude, p.longitude) = extract_coordinates site.attrs := by
  intro p hp
  have hp' : p ∈ sites.filterMap extract_parish_from_site :=
    (removeDupsGo_sublist _ []).subset hp
  obtain ⟨site, hsite, hex⟩ := List.mem_filterMap.mp hp'
  refine ⟨site, hsite, ?_⟩
  unfold extract_parish_from_site at hex
  split at hex
  · exact absurd hex (by simp)
  · split at hex <;> (dsimp only at hex; split at hex) <;>
      first
      | (simp only [Option.some_inj] at hex; subst hex; rfl)
      | exact absurd hex (by simp)

/-- Witness for the amended C5 at the concrete counterexample document. -/
theorem c5_coords_amended_witness :
    ∃ site ∈ [c5site],
      (c5record.latitude, c5record.longitude) = extract_coordinates site.attrs :=
  c5_coords_amended [c5site] c5record (by
    have h : parishFinderExtract [c5site] = [c5record] := by decide
    rw [h]
    exact List.mem_singleton_self _)

/-! ## Claim C4 -/


/-- **C4 counterexample** — dispatch is not "one strategy per SiteType": the
registry holds no entry for the classifier-produced tag `"map"`; that tag
reaches the Generic fallback only through the unrecognized-tag default. -/
theorem c4_no_map_strategy_counterexample :
    EXTRACTORS.lookup (SiteType.value SiteType.map) = none ∧
    get_extractor (SiteType.value SiteType.map) = ExtractorId.generic := by
  constructor <;> rfl

/-- **C4 (amended)** — dispatch is total and never fails: every SiteType tag
resolves to a strategy, with `map` resolving to Generic because the registry
has no Map entry; and every string absent from the registry (any unrecognized
tag) resolves to Generic. -/
theorem c4_dispatch_total_amended :
    (∀ st : SiteType, get_extractor st.value = strategyFor st) ∧
    (∀ s : String, EXTRACTORS.lookup s = none →
       get_extractor s = ExtractorId.generic) := by
  constructor
  · intro st
    cases st <;> rfl
  · intro s h
    unfold get_extractor
    rw [h]
    rfl

/-- Witness for the amended C4: the unrecognized string "unknown" resolves to
the Generic strategy. -/
theorem c4_dispatch_total_amended_witness :
    get_extractor ("unknown") = ExtractorId.generic :=
  c4_dispatch_total_amended.2 ("unknown") (by decide)

/-! ## Claim C3 -/


/-- **C3** — The orchestrator never raises (it is total by construction); its
success flag is true iff at least one record was produced (first conjunct);
and any exception raised during site-type classification or strategy
execution is caught and yields the outcome with an empty record list,
`success=false`, and the descriptive error string appended to the error list
(second conjunct). -/
theorem c3_orchestrator_outcome {Doc : Type}
    (dn du dir : String) (load : Except String Doc)
    (detect : Doc → Except String SiteType)
    (runStrategy : SiteType → Doc → Except String (List Parish)) :
    ((extract_parishes_from_directory dn du dir load detect runStrategy).success
        = true ↔
      (extract_parishes_from_directory dn du dir load detect runStrategy).parishes
        ≠ []) ∧
    (∀ soup st e, load = .ok soup →
      (detect soup = .error e ∨
        (detect soup = .ok st ∧ runStrategy st soup = .error e)) →
      extract_parishes_from_directory dn du dir load detect runStrategy =
        extractionFailure dn du dir e ∧
      (extract_parishes_from_directory dn du dir load detect
          runStrategy).parishes = [] ∧
      (extract_parishes_from_directory dn du dir load detect
          runStrategy).success = false) := by
  constructor
  · cases load with
    | error e => simp [extract_parishes_from_directory, extractionFailure]
    | ok soup =>
      cases hdet : detect soup with
      | error e => simp [extract_parishes_from_directory, hdet, extractionFailure]
      | ok st =>
        cases hrun : runStrategy st soup with
        | error e =>
          simp [extract_parishes_from_directory, hdet, hrun, extractionFailure]
        | ok ps =>
          simp only [extract_parishes_from_directory, hdet, hrun,
            extractionSuccess, decide_eq_true_eq, List.length_pos, ne_eq]
  · intro soup st e hload hcase
    subst hload
    rcases hcase with hdet | ⟨hdet, hrun⟩
    · refine ⟨?_, ?_, ?_⟩ <;>
        simp [extract_parishes_from_directory, hdet, extractionFailure]
    · refine ⟨?_, ?_, ?_⟩ <;>
        simp [extract_parishes_from_directory, hdet, hrun, extractionFailure]

/-- Witness for C3 with a classifier that raises on a concrete document. -/
theorem c3_orchestrator_outcome_witness :
    extract_parishes_from_directory ("Diocese of Test") ("https://t.org")
        ("https://t.org/parishes") (Except.ok ())
        (fun _ => Except.error ("boom"))
        (fun _ _ => Except.ok ([] : List Parish)) =
      extractionFailure ("Diocese of Test") ("https://t.org")
        ("https://t.org/parishes") ("boom") :=
  ((c3_orchestrator_outcome ("Diocese of Test") ("https://t.org")
      ("https://t.org/parishes") (Except.ok ()) (fun _ => Except.error ("boom"))
      (fun _ _ => Except.ok ([] : List Parish))).2 () SiteType.generic ("boom")
    rfl (Or.inl rfl)).1

/-- **C7 counterexample** — in a one-row table the first row is *not*
skipped (`rows[1:] if len(rows) > 1 else rows`): the sole (first) row
produces a record, contradicting "no parish record is ever produced from a
table's first row". -/
theorem c7_first_row_counterexample :
    c7singleRowTable.rows.length = 1 ∧
    extract_parishes_from_table c7singleRowTable =
      [{ name := "St. Mary Parish", confidence := mkRat 17 20,
         extraction_method := "table" }] := by
  constructor
  · rfl
  · decide

/-- **C7 (amended)** — when a table has at least two rows, the first row is
treated as a header and skipped, and records come only from the remaining
rows; a single-row table's sole row is processed as data.  Every produced
record's name is the cleaned text of its row's first cell, which passed
validation. -/
theorem c7_header_skip_amended (t : HtmlTable) :
    (2 ≤ t.rows.length →
      extract_parishes_from_table t =
        t.rows.tail.filterMap extract_parish_from_row) ∧
    (t.rows.length = 1 →
      extract_parishes_from_table t =
        t.rows.filterMap extract_parish_from_row) ∧
    (∀ row p, extract_parish_from_row row = some p →
      ∃ c0, row.cells.head? = some c0 ∧ p.name = clean_text c0.text ∧
        validate_parish_name p.name = true) := by
  refine ⟨?_, ?_, ?_⟩
  · intro h
    unfold extract_parishes_from_table
    rw [if_neg (by intro he; rw [he] at h; simp at h), if_pos (by omega)]
  · intro h
    unfold extract_parishes_from_table
    rw [if_neg (by intro he; rw [he] at h; simp at h), if_neg (by omega)]
  · intro row p hex
    unfold extract_parish_from_row at hex
    split at hex
    · exact absurd hex (by simp)
    · rename_i hd tl heq
      dsimp only at hex
      split at hex
      · rename_i hv
        simp only [Option.some_inj] at hex
        subst hex
        exact ⟨hd, by rw [heq]; rfl, rfl, hv⟩
      · exact absurd hex (by simp)

/-- Witness for the amended C7: on a two-row table the extraction equals the
extraction from the tail (the header row is skipped). -/
theorem c7_header_skip_amended_witness :
    extract_parishes_from_table c7twoRowTable =
      c7twoRowTable.rows.tail.filterMap extract_parish_from_row :=
  (c7_header_skip_amended c7twoRowTable).1 (by decide)

/-- **C8 counterexample** — `c8doc` has no ParishFinder indicator and its
element's class matches the card-combining pattern *case-insensitively*
(the claim's condition holds), yet the classifier returns Generic, not
CardLayout: the source regex `(card.*location|location.*card|parish.*card)`
is case-sensitive. -/
theorem c8_card_case_counterexample :
    finderCond c8doc ("https://example.org") = false ∧
    cardCondSpec c8doc = true ∧
    detect_site_type c8doc ("https://example.org") = SiteType.generic := by
  refine ⟨?_, ?_, ?_⟩ <;> decide

/-- **C8 (amended)** — for every document and URL with no ParishFinder
indicator, the classifier returns CardLayout if the document contains a
`div` whose class string matches the *case-sensitive* pattern combining
"card" with "location" or "parish", or a `div` with class exactly
`col-lg location`, or any element matching the `parish-card`/`location-card`
class-substring selectors. -/
theorem c8_card_dispatch_amended (d : Doc) (url : String)
    (hf : finderCond d url = false) (hc : cardCond d = true) :
    detect_site_type d url = SiteType.card_layout := by
  unfold detect_site_type
  rw [hf, hc]
  rfl

/-- Witness for the amended C8 at a concrete lowercase card document. -/
theorem c8_card_dispatch_amended_witness :
    detect_site_type c8docLower ("https://example.org") = SiteType.card_layout :=
  c8_card_dispatch_amended c8docLower ("https://example.org") (by decide)
    (by decide)

theorem genericLoop_eq_firstYielding (d : Doc) :
    ∀ sels, genericLoop d sels [] = firstYieldingRecords d sels := by
  intro sels
  induction sels with
  | nil => rfl
  | cons sel rest ih =>
    rw [genericLoop, firstYieldingRecords]
    by_cases hempty : d.elems.filter (matchesSel sel) = []
    · rw [if_pos hempty, ih, if_pos (by simp [selRecords, hempty])]
    · rw [if_neg hempty]
      simp only [List.nil_append]
      by_cases hrec : selRecords d sel = []
      · rw [if_pos hrec, if_pos hrec, hrec, ih]
      · rw [if_neg hrec, if_neg hrec]

/-- **C9 counterexample** — the claim's selector order (class/id substring
`parish` first, no separate sixth `[id*='parish']` selector) would extract
"St. Mary Parish" from `c9doc`, but the code extracts "Holy Trinity Church":
in the source, `[id*='parish']` is a separate sixth selector tried *after*
`.entry`, so the claimed order is wrong. -/
theorem c9_selector_order_counterexample :
    (genericExtract c9doc).map Parish.name = [("Holy Trinity Church")] ∧
    (remove_duplicates (firstYieldingRecords c9doc claimSelectors)).map
        Parish.name = [("St. Mary Parish")] := by
  constructor <;> decide

/-- **C9 (amended)** — the Generic strategy tries its selectors in the fixed
source order `[class*='parish']`, `[class*='church']`, `[class*='location']`,
`article`, `.entry`, `[id*='parish']`, `.content-item`, `.post`; it skips
selectors matching no element, examines at most the first 15 elements of a
matching selector, and returns (deduplicated) the records of the first
selector that yields at least one valid record. -/
theorem c9_generic_selector_amended (d : Doc) :
    genericExtract d =
      remove_duplicates (firstYieldingRecords d genericSelectors) := by
  unfold genericExtract
  rw [genericLoop_eq_firstYielding]

end USCCB
